import Mathlib

/-!
# Verification of the `gs-heisenberg` notebook's specification

A shallow embedding of the notebook `2/gs-heisenberg.ipynb` (ground state of
the spin-1/2 Heisenberg antiferromagnetic chain with NetKet), together with
theorems settling the specification's claims about it.

The notebook's own code consists of: an environment-variable/import prologue,
physics configuration (chain of length `L = 22`, zero-magnetization Hilbert
space, Heisenberg Hamiltonian), three `flax.nnx` module definitions
(`Jastrow`, `Model`, `Model2`), and five sequential training runs driven by
the external NetKet library.  The module forward functions and the
orchestration are embedded below from the source; parts of the behaviour that
live only inside the external library (the exchange sampler's move, the
parameter counts of the library RBM models, the log file writer) are modelled
from the specification text and marked as such in their doc comments.
-/

open Finset

/-! ## The Jastrow module (notebook cell defining `class Jastrow`)

Source forward pass, for `x` a single configuration of shape `(N,)`:
```
x = x.astype(jnp.complex128)
quad = jnp.einsum('...i,ij,...j->...', x, self.J, x)
lin  = jnp.squeeze(x @ self.v_bias, -1)
return quad + lin
```
`self.J` has shape `(N, N)` and `self.v_bias` has shape `(N, 1)`, both
complex128.  We embed configurations as `Fin N → ℂ` (the `astype` cast), `J`
as an `N × N` complex matrix and `v_bias` as an `N × 1` complex matrix. -/

/-- `jnp.einsum('...i,ij,...j->...', x, J, x)` on a single input vector. -/
noncomputable def jastrowQuad {N : ℕ} (J : Matrix (Fin N) (Fin N) ℂ) (x : Fin N → ℂ) : ℂ :=
  ∑ i, ∑ j, x i * J i j * x j

/-- `jnp.squeeze(x @ v_bias, -1)` on a single input vector: the
matrix-vector contraction of `x` with the `(N, 1)` bias parameter, the
trailing singleton axis squeezed away. -/
noncomputable def jastrowLin {N : ℕ} (v_bias : Matrix (Fin N) (Fin 1) ℂ) (x : Fin N → ℂ) : ℂ :=
  Matrix.vecMul x v_bias 0

/-- `Jastrow.__call__` on a single configuration: `quad + lin`. -/
noncomputable def jastrowCall {N : ℕ} (J : Matrix (Fin N) (Fin N) ℂ)
    (v_bias : Matrix (Fin N) (Fin 1) ℂ) (x : Fin N → ℂ) : ℂ :=
  jastrowQuad J x + jastrowLin v_bias x

/-- The specification's description of the pairwise (Jastrow) form: the sum
of a linear bias term — the dot product of `x` with the bias vector — and the
quadratic form `x^T J x` over the dense coupling matrix `J`. -/
noncomputable def specJastrow {N : ℕ} (J : Matrix (Fin N) (Fin N) ℂ) (a : Fin N → ℂ)
    (x : Fin N → ℂ) : ℂ :=
  Matrix.dotProduct x a + Matrix.dotProduct x (J.mulVec x)

/-- C3: `Jastrow.__call__(x)` equals the linear bias term (dot product of `x`
with the bias vector, i.e. the single column of `v_bias`) plus the quadratic
form `x^T J x` over the dense `N × N` coupling matrix, as one complex
scalar. -/
theorem jastrow_call_eq_bias_plus_quadratic {N : ℕ}
    (J : Matrix (Fin N) (Fin N) ℂ) (v_bias : Matrix (Fin N) (Fin 1) ℂ)
    (x : Fin N → ℂ) :
    jastrowCall J v_bias x = specJastrow J (fun i => v_bias i 0) x := by
  unfold jastrowCall jastrowQuad jastrowLin specJastrow
  unfold Matrix.vecMul Matrix.mulVec Matrix.dotProduct
  rw [add_comm]
  congr 1
  refine Finset.sum_congr rfl fun i _ => ?_
  rw [Finset.mul_sum]
  exact Finset.sum_congr rfl fun j _ => by ring

/-- C10: the value of `Jastrow.__call__` is unchanged when the coupling
matrix `J` is replaced by its transpose: only the symmetric part of `J`
contributes to the quadratic form. -/
theorem jastrow_call_transpose_invariant {N : ℕ}
    (J : Matrix (Fin N) (Fin N) ℂ) (v_bias : Matrix (Fin N) (Fin 1) ℂ)
    (x : Fin N → ℂ) :
    jastrowCall J.transpose v_bias x = jastrowCall J v_bias x := by
  unfold jastrowCall jastrowQuad
  congr 1
  rw [Finset.sum_comm]
  refine Finset.sum_congr rfl fun i _ => ?_
  refine Finset.sum_congr rfl fun j _ => ?_
  rw [Matrix.transpose_apply]
  ring

/-! ## The feed-forward modules (`class Model`, `class Model2`)

Source forward passes:
```
class Model:    x = self.linear(x);  x = log_cosh(x);  return jnp.sum(x, axis=-1)
class Model2:   x = self.linear1(x); x = log_cosh(x)
                x = self.linear2(x); x = log_cosh(x);  return jnp.sum(x, axis=-1)
```
`nnx.Linear(in_features, out_features)` computes `x @ kernel + bias` with a
`kernel` of shape `(in_features, out_features)` and a `bias` of shape
`(out_features,)`; in `Model` the layer is `N → 2N`, in `Model2` the layers
are `N → 2N` and `2N → N`; all parameters are complex128. -/

/-- `nk.nn.activation.log_cosh`, the complex log-cosh activation. -/
noncomputable def log_cosh (z : ℂ) : ℂ := Complex.log (Complex.cosh z)

/-- `nnx.Linear`: `x @ kernel + bias` on a single input vector, with
`kernel : (nIn, nOut)` and `bias : (nOut,)`. -/
noncomputable def nnxLinear {nIn nOut : ℕ} (kernel : Matrix (Fin nIn) (Fin nOut) ℂ)
    (bias : Fin nOut → ℂ) (x : Fin nIn → ℂ) : Fin nOut → ℂ :=
  fun j => Matrix.vecMul x kernel j + bias j

/-- `Model.__call__` on a single configuration: the `N → 2N` linear layer,
`log_cosh`, then `jnp.sum(x, axis=-1)`. -/
noncomputable def modelCall {N : ℕ} (kernel : Matrix (Fin N) (Fin (2 * N)) ℂ)
    (bias : Fin (2 * N) → ℂ) (x : Fin N → ℂ) : ℂ :=
  ∑ j, log_cosh (nnxLinear kernel bias x j)

/-- `Model2.__call__` on a single configuration: the `N → 2N` layer,
`log_cosh`, the `2N → N` layer, `log_cosh`, then `jnp.sum(x, axis=-1)`. -/
noncomputable def model2Call {N : ℕ}
    (kernel1 : Matrix (Fin N) (Fin (2 * N)) ℂ) (bias1 : Fin (2 * N) → ℂ)
    (kernel2 : Matrix (Fin (2 * N)) (Fin N) ℂ) (bias2 : Fin N → ℂ)
    (x : Fin N → ℂ) : ℂ :=
  ∑ j, log_cosh (nnxLinear kernel2 bias2
    (fun i => log_cosh (nnxLinear kernel1 bias1 x i)) j)

/-- The specification's notion of a complex affine transform: a complex
matrix applied to the input plus a complex shift vector. -/
noncomputable def specAffine {m n : ℕ} (A : Matrix (Fin m) (Fin n) ℂ)
    (b : Fin m → ℂ) (x : Fin n → ℂ) : Fin m → ℂ :=
  A.mulVec x + b

/-- The specification's one-layer feed-forward form: the coordinate-wise sum
of `log_cosh` applied to one complex affine transform of `x`. -/
noncomputable def specFF1 {m n : ℕ} (A : Matrix (Fin m) (Fin n) ℂ)
    (b : Fin m → ℂ) (x : Fin n → ℂ) : ℂ :=
  ∑ j, log_cosh (specAffine A b x j)

/-- The specification's two-layer feed-forward form: a second complex affine
layer composed with the first log-cosh layer, then `log_cosh` and the
coordinate-wise sum. -/
noncomputable def specFF2 {m n p : ℕ}
    (A1 : Matrix (Fin m) (Fin n) ℂ) (b1 : Fin m → ℂ)
    (A2 : Matrix (Fin p) (Fin m) ℂ) (b2 : Fin p → ℂ) (x : Fin n → ℂ) : ℂ :=
  ∑ j, log_cosh (specAffine A2 b2 (fun i => log_cosh (specAffine A1 b1 x i)) j)

/-- `x @ kernel` equals the matrix-vector product of the transposed kernel
with `x`: the bridge between the source's `nnx.Linear` layout and the
specification's affine-transform phrasing. -/
theorem nnxLinear_eq_specAffine {nIn nOut : ℕ}
    (kernel : Matrix (Fin nIn) (Fin nOut) ℂ) (bias : Fin nOut → ℂ)
    (x : Fin nIn → ℂ) :
    nnxLinear kernel bias x = specAffine kernel.transpose bias x := by
  funext j
  unfold nnxLinear specAffine
  unfold Matrix.vecMul Matrix.mulVec Matrix.dotProduct
  simp only [Matrix.transpose_apply, Pi.add_apply]
  congr 1
  exact Finset.sum_congr rfl fun i _ => mul_comm _ _

/-- C4: `Model.__call__(x)` is the coordinate-wise sum of `log_cosh` of one
complex affine transform of `x` (with matrix the transposed kernel), and
`Model2.__call__(x)` is the coordinate-wise sum of `log_cosh` of a second
complex affine layer composed with the first log-cosh layer. -/
theorem model_calls_are_logcosh_affine_sums {N : ℕ}
    (kernel1 : Matrix (Fin N) (Fin (2 * N)) ℂ) (bias1 : Fin (2 * N) → ℂ)
    (kernel2 : Matrix (Fin (2 * N)) (Fin N) ℂ) (bias2 : Fin N → ℂ)
    (x : Fin N → ℂ) :
    modelCall kernel1 bias1 x = specFF1 kernel1.transpose bias1 x ∧
      model2Call kernel1 bias1 kernel2 bias2 x
        = specFF2 kernel1.transpose bias1 kernel2.transpose bias2 x := by
  constructor
  · unfold modelCall specFF1
    refine Finset.sum_congr rfl fun j _ => ?_
    rw [nnxLinear_eq_specAffine]
  · unfold model2Call specFF2
    refine Finset.sum_congr rfl fun j _ => ?_
    rw [nnxLinear_eq_specAffine kernel1, nnxLinear_eq_specAffine kernel2]

/-! ## Batch evaluation (C6)

The notebook's modules are written to accept a batch of configurations as a
matrix of shape `(batch, N)`: the Jastrow `einsum` carries the batch axis in
its ellipsis, `x @ v_bias` is a `(batch, N) @ (N, 1)` matrix product squeezed
to `(batch,)`, `nnx.Linear` maps a `(batch, nIn)` input to
`x @ kernel + bias` of shape `(batch, nOut)` with the bias broadcast along
the batch axis, and `jnp.sum(x, axis=-1)` sums the trailing axis. -/

/-- `jnp.einsum('...i,ij,...j->...', X, J, X)` on a batch `X : (B, N)`. -/
noncomputable def jastrowQuadBatch {B N : ℕ} (J : Matrix (Fin N) (Fin N) ℂ)
    (X : Matrix (Fin B) (Fin N) ℂ) : Fin B → ℂ :=
  fun b => ∑ i, ∑ j, X b i * J i j * X b j

/-- `jnp.squeeze(X @ v_bias, -1)` on a batch `X : (B, N)`: the `(B, 1)`
matrix product with the trailing axis squeezed away. -/
noncomputable def jastrowLinBatch {B N : ℕ} (v_bias : Matrix (Fin N) (Fin 1) ℂ)
    (X : Matrix (Fin B) (Fin N) ℂ) : Fin B → ℂ :=
  fun b => (X * v_bias) b 0

/-- `Jastrow.__call__` on a batch of shape `(B, N)`: output shape `(B,)`. -/
noncomputable def jastrowCallBatch {B N : ℕ} (J : Matrix (Fin N) (Fin N) ℂ)
    (v_bias : Matrix (Fin N) (Fin 1) ℂ) (X : Matrix (Fin B) (Fin N) ℂ) :
    Fin B → ℂ :=
  fun b => jastrowQuadBatch J X b + jastrowLinBatch v_bias X b

/-- `nnx.Linear` on a batch `X : (B, nIn)`: `X @ kernel + bias`, the bias
broadcast along the batch axis; output shape `(B, nOut)`. -/
noncomputable def nnxLinearBatch {B nIn nOut : ℕ}
    (kernel : Matrix (Fin nIn) (Fin nOut) ℂ) (bias : Fin nOut → ℂ)
    (X : Matrix (Fin B) (Fin nIn) ℂ) : Matrix (Fin B) (Fin nOut) ℂ :=
  fun b j => (X * kernel) b j + bias j

/-- `Model.__call__` on a batch of shape `(B, N)`: output shape `(B,)`. -/
noncomputable def modelCallBatch {B N : ℕ} (kernel : Matrix (Fin N) (Fin (2 * N)) ℂ)
    (bias : Fin (2 * N) → ℂ) (X : Matrix (Fin B) (Fin N) ℂ) : Fin B → ℂ :=
  fun b => ∑ j, log_cosh (nnxLinearBatch kernel bias X b j)

/-- `Model2.__call__` on a batch of shape `(B, N)`: output shape `(B,)`. -/
noncomputable def model2CallBatch {B N : ℕ}
    (kernel1 : Matrix (Fin N) (Fin (2 * N)) ℂ) (bias1 : Fin (2 * N) → ℂ)
    (kernel2 : Matrix (Fin (2 * N)) (Fin N) ℂ) (bias2 : Fin N → ℂ)
    (X : Matrix (Fin B) (Fin N) ℂ) : Fin B → ℂ :=
  fun b => ∑ j, log_cosh (nnxLinearBatch kernel2 bias2
    (fun b' i => log_cosh (nnxLinearBatch kernel1 bias1 X b' i)) b j)

/-- Row `b` of a batched `nnx.Linear` application is the single-input
application to row `b` of the batch. -/
theorem nnxLinearBatch_row {B nIn nOut : ℕ}
    (kernel : Matrix (Fin nIn) (Fin nOut) ℂ) (bias : Fin nOut → ℂ)
    (X : Matrix (Fin B) (Fin nIn) ℂ) (b : Fin B) :
    nnxLinearBatch kernel bias X b = nnxLinear kernel bias (X b) := by
  funext j
  unfold nnxLinearBatch nnxLinear
  rw [Matrix.mul_apply]
  rfl

/-- C6: on a batch `X` of shape `(B, N)` each of the three notebook modules
returns a vector of shape `(B,)` whose `b`-th entry is the module applied to
the single configuration `X b`: batch evaluation is elementwise
independent. -/
theorem batch_evaluation_is_elementwise {B N : ℕ}
    (J : Matrix (Fin N) (Fin N) ℂ) (v_bias : Matrix (Fin N) (Fin 1) ℂ)
    (kernel1 : Matrix (Fin N) (Fin (2 * N)) ℂ) (bias1 : Fin (2 * N) → ℂ)
    (kernel2 : Matrix (Fin (2 * N)) (Fin N) ℂ) (bias2 : Fin N → ℂ)
    (X : Matrix (Fin B) (Fin N) ℂ) (b : Fin B) :
    jastrowCallBatch J v_bias X b = jastrowCall J v_bias (X b) ∧
      modelCallBatch kernel1 bias1 X b = modelCall kernel1 bias1 (X b) ∧
      model2CallBatch kernel1 bias1 kernel2 bias2 X b
        = model2Call kernel1 bias1 kernel2 bias2 (X b) := by
  refine ⟨?_, ?_, ?_⟩
  · unfold jastrowCallBatch jastrowCall jastrowQuadBatch jastrowQuad
      jastrowLinBatch jastrowLin
    rw [Matrix.mul_apply]
    rfl
  · unfold modelCallBatch modelCall
    exact Finset.sum_congr rfl fun j _ => by rw [nnxLinearBatch_row]
  · unfold model2CallBatch model2Call
    refine Finset.sum_congr rfl fun j _ => ?_
    rw [nnxLinearBatch_row]
    congr 1

/-! ## The exchange sampler's move (C2)

The notebook constructs `nk.sampler.MetropolisExchange(hilbert=hi, graph=g)`
for every run, over the Hilbert space
`hi = nk.hilbert.Spin(s=0.5, total_sz=0, N=g.n_nodes)`.  The sampler itself
is library code, not under `src/`; its proposal is modelled from the
specification below. -/

/-- Modelled from the spec: the exchange move of the library's
`MetropolisExchange` sampler (not under `src/`) — "a Markov-chain proposal
that swaps two site values, preserving a fixed total".  A configuration
assigns an integer spin value to each of the `n` sites; the move swaps the
values of sites `i` and `j`. -/
def exchangeMove {n : ℕ} (x : Fin n → ℤ) (i j : Fin n) : Fin n → ℤ :=
  fun k => x (Equiv.swap i j k)

/-- The configurations reachable from a starting configuration `x0` by any
finite sequence of exchange moves — everything the `MetropolisExchange`
chain can visit during a run. -/
inductive ExchangeReachable {n : ℕ} (x0 : Fin n → ℤ) : (Fin n → ℤ) → Prop
  | refl : ExchangeReachable x0 x0
  | step {x : Fin n → ℤ} (i j : Fin n) :
      ExchangeReachable x0 x → ExchangeReachable x0 (exchangeMove x i j)

/-- One exchange move leaves the total magnetization unchanged. -/
theorem exchangeMove_sum {n : ℕ} (x : Fin n → ℤ) (i j : Fin n) :
    ∑ k, exchangeMove x i j k = ∑ k, x k :=
  Equiv.sum_comp (Equiv.swap i j) x

/-- C2: if the starting configuration sums to the configured fixed total
`S`, then so does every configuration reachable by the exchange sampler —
applying an exchange move preserves the per-site sum, hence the
magnetization constraint holds for the run's entire lifetime. -/
theorem exchange_reachable_preserves_magnetization {n : ℕ} (S : ℤ)
    (x0 x : Fin n → ℤ) (h0 : ∑ k, x0 k = S)
    (hr : ExchangeReachable x0 x) : ∑ k, x k = S := by
  induction hr with
  | refl => exact h0
  | step i j _ ih => rw [exchangeMove_sum]; exact ih

/-- Concrete instance of C2: from the zero-magnetization configuration
`(1, -1, 1, -1)`, swapping sites 0 and 1 and then sites 1 and 2 again sums
to zero. -/
theorem exchange_reachable_preserves_magnetization_witness :
    ∑ k, exchangeMove (exchangeMove ![(1 : ℤ), -1, 1, -1] 0 1) 1 2 k = 0 :=
  exchange_reachable_preserves_magnetization 0 ![(1 : ℤ), -1, 1, -1] _
    (by decide)
    (ExchangeReachable.step 1 2 (ExchangeReachable.step 0 1
      ExchangeReachable.refl))

/-! ## Parameter counts of the two RBM ansätze (C5)

The notebook instantiates `nk.models.RBM(alpha=1)` and
`nk.models.RBMSymm(symmetries=g.translation_group(), alpha=1)` over the
`N = 22` site chain.  Both models are library code, not under `src/`; their
parameter counts are modelled from the specification. -/

/-- Modelled from the spec: the independent parameter count of the
unsymmetrized `nk.models.RBM` (library code, not under `src/`): a dense
weight matrix between `N` visible and `M = alpha · N` hidden units plus `N`
visible and `M` hidden biases — the spec's `O(N·M)` count. -/
def rbmParamCount (N alpha : ℕ) : ℕ :=
  N * (alpha * N) + N + alpha * N

/-- Modelled from the spec: the independent parameter count of
`nk.models.RBMSymm` over the translation group of the length-`N` periodic
chain (library code, not under `src/`): symmetry projection ties
translation-equivalent weights together, leaving `M = alpha · N` independent
weight values broadcast across the `N` translates — the spec's "O(M)
independent values broadcast across translates" — together with one
independent hidden bias per translation orbit of hidden units (`alpha` of
them) and a single shared visible bias. -/
def rbmSymmParamCount (N alpha : ℕ) : ℕ :=
  alpha * N + alpha + 1

/-- C5: at hidden-unit density `alpha = 1` and site count `N = 22`, the
symmetry-projected RBM has strictly fewer independent parameters than the
unsymmetrized RBM (24 against 528). -/
theorem rbmsymm_fewer_parameters_than_rbm :
    rbmSymmParamCount 22 1 < rbmParamCount 22 1 := by decide

/-! ## Cell-by-cell effects of the script prologue (C9)

The notebook's code cells, in execution order.  Only three kinds of effect
matter to the environment-configuration claim: the `%pip install` cell, the
single `os.environ["JAX_PLATFORM_NAME"] = "cpu"` assignment, and the imports
of the numerical framework (`import netket as nk` with its helpers, and the
later `from flax import nnx; import jax.numpy as jnp; import jax`). -/

/-- The observable effect of one notebook code cell, as far as environment
configuration and framework loading are concerned. -/
inductive CellEffect
  | pipInstall
  | setEnvJaxPlatformName (value : String)
  | importNetketAndHelpers
  | importFlaxAndJax
  | config
  | trainingRun (out : String)
  | loadAndPlot (log : String)
  deriving DecidableEq

/-- Whether a cell assigns the `JAX_PLATFORM_NAME` environment variable. -/
def CellEffect.isEnvAssign : CellEffect → Bool
  | CellEffect.setEnvJaxPlatformName _ => true
  | _ => false

/-- Whether a cell imports the numerical framework (netket or jax). -/
def CellEffect.isFrameworkImport : CellEffect → Bool
  | CellEffect.importNetketAndHelpers => true
  | CellEffect.importFlaxAndJax => true
  | _ => false

/-- The notebook's twenty code cells in order, one `CellEffect` each:
`%pip install netket`; the `JAX_PLATFORM_NAME` assignment; the
`import netket as nk` cell; the graph, Hilbert-space and Hamiltonian
definitions; the Lanczos reference diagonalization; the Jastrow class
definition with its flax/jax imports; the Jastrow instantiation; then the
alternating training and load-and-plot cells of the five runs (the RBM,
symmetric-RBM and feed-forward cells also rebind models and samplers, which
`notebookRuns` tracks separately). -/
def notebookCellEffects : List CellEffect :=
  [CellEffect.pipInstall,
   CellEffect.setEnvJaxPlatformName "cpu",
   CellEffect.importNetketAndHelpers,
   CellEffect.config,
   CellEffect.config,
   CellEffect.config,
   CellEffect.config,
   CellEffect.importFlaxAndJax,
   CellEffect.config,
   CellEffect.trainingRun "Jastrow",
   CellEffect.loadAndPlot "Jastrow.log",
   CellEffect.config,
   CellEffect.trainingRun "RBM",
   CellEffect.loadAndPlot "RBM.log",
   CellEffect.trainingRun "RBMSymmetric",
   CellEffect.loadAndPlot "RBMSymmetric.log",
   CellEffect.trainingRun "FF",
   CellEffect.loadAndPlot "FF.log",
   CellEffect.trainingRun "FF2",
   CellEffect.loadAndPlot "FF2.log"]

/-- C9: the `JAX_PLATFORM_NAME` environment variable is assigned exactly
once in the notebook, that assignment precedes the first import of the
numerical framework, and no cell after the assignment modifies it again. -/
theorem jax_platform_env_assigned_once_before_import :
    notebookCellEffects.countP CellEffect.isEnvAssign = 1 ∧
      notebookCellEffects.findIdx CellEffect.isEnvAssign
        < notebookCellEffects.findIdx CellEffect.isFrameworkImport ∧
      (notebookCellEffects.drop
          (notebookCellEffects.findIdx CellEffect.isEnvAssign + 1)).countP
        CellEffect.isEnvAssign = 0 := by
  decide

/-! ## The five training runs (C1)

The notebook's orchestration, traced cell by cell.  Python rebinding of the
script variables `ma`/`ffnn`/`ffnn2`, `sa`, `op`/`opt` is mirrored by `let`
shadowing below; each run record captures the arguments actually passed to
`nk.vqs.MCState(sampler, model, n_samples=1008)` and to
`nk.VMC(hamiltonian=ha, optimizer=..., preconditioner=..., ...)` followed by
`gs.run(out=..., n_iter=...)` in that cell. -/

/-- Which of the five ansatz objects a run binds into its `MCState`. -/
inductive AnsatzModel
  | jastrowInstance
  | rbmInstance
  | rbmSymmInstance
  | ffnnInstance
  | ffnn2Instance
  deriving DecidableEq

/-- A `nk.sampler.MetropolisExchange(hi, graph=g)` object, tagged with the
index of the notebook code cell (0-based, counting only code cells) whose
execution constructed it. -/
structure SamplerObj where
  builtInCell : ℕ
  deriving DecidableEq

/-- A `nk.optimizer.Sgd(learning_rate=...)` object: the learning rate in
hundredths, and the index of the code cell that constructed it. -/
structure OptimizerObj where
  lrHundredths : ℕ
  builtInCell : ℕ
  deriving DecidableEq

/-- One invocation of the training driver: the `out=` name given to
`gs.run`, the model and sampler passed to `MCState`, the optimizer passed to
`nk.VMC`, and the iteration count. -/
structure TrainingRun where
  out : String
  model : AnsatzModel
  sampler : SamplerObj
  optimizer : OptimizerObj
  n_iter : ℕ
  deriving DecidableEq

/-- The five training-driver invocations in notebook order.  Code cells are
numbered 0-based: cell 8 is the Jastrow instantiation, cell 9 the Jastrow
run, cell 11 the RBM model, cell 12 the RBM run, cell 14 the symmetric-RBM
run, cell 16 the first feed-forward run, cell 18 the second feed-forward
run.  In cell 16 the source builds `opt = nk.optimizer.Sgd(0.05)` but passes
`optimizer=op` — the `op` still bound by cell 14 — to `nk.VMC`; in cell 18
the source builds `ffnn2 = Model2(...)` and another `opt`, but passes the
one-layer `ffnn` to `MCState`, reuses the `sa` built in cell 16, and again
passes `optimizer=op`. -/
def notebookRuns : List TrainingRun :=
  let ma := AnsatzModel.jastrowInstance
  let sa : SamplerObj := ⟨9⟩
  let op : OptimizerObj := ⟨1, 9⟩
  let run1 : TrainingRun := ⟨"Jastrow", ma, sa, op, 300⟩
  let ma := AnsatzModel.rbmInstance
  let sa : SamplerObj := ⟨12⟩
  let op : OptimizerObj := ⟨5, 12⟩
  let run2 : TrainingRun := ⟨"RBM", ma, sa, op, 600⟩
  let ma := AnsatzModel.rbmSymmInstance
  let sa : SamplerObj := ⟨14⟩
  let op : OptimizerObj := ⟨1, 14⟩
  let run3 : TrainingRun := ⟨"RBMSymmetric", ma, sa, op, 300⟩
  let ffnn := AnsatzModel.ffnnInstance
  let sa : SamplerObj := ⟨16⟩
  let opt : OptimizerObj := ⟨5, 16⟩
  let run4 : TrainingRun := ⟨"FF", ffnn, sa, op, 300⟩
  let ffnn2 := AnsatzModel.ffnn2Instance
  let opt : OptimizerObj := ⟨5, 18⟩
  let run5 : TrainingRun := ⟨"FF2", ffnn, sa, op, 600⟩
  [run1, run2, run3, run4, run5]

/-- C1 (evaluation at the failing run): the fifth run, named `FF2`, is
invoked with the one-layer model `ffnn` — not the two-layer `ffnn2` — with
the sampler left over from the `FF` run rather than one built for this run,
and with the `Sgd(learning_rate=0.01)` optimizer still bound since the
symmetric-RBM cell rather than the freshly built `opt`. -/
theorem ff2_run_reuses_ffnn_and_stale_sampler_optimizer :
    (notebookRuns.get ⟨4, by decide⟩).out = "FF2" ∧
      (notebookRuns.get ⟨4, by decide⟩).model = AnsatzModel.ffnnInstance ∧
      AnsatzModel.ffnnInstance ≠ AnsatzModel.ffnn2Instance ∧
      (notebookRuns.get ⟨4, by decide⟩).sampler
        = (notebookRuns.get ⟨3, by decide⟩).sampler ∧
      (notebookRuns.get ⟨4, by decide⟩).optimizer
        = (notebookRuns.get ⟨2, by decide⟩).optimizer := by
  refine ⟨rfl, rfl, by decide, rfl, rfl⟩

/-! ## The persisted log and its round-trip (C7)

Each run writes `<out>.log`, which the notebook reloads with
`json.load(open("<out>.log"))` and reads through the keys
`["Energy"]["iters"]` and `["Energy"]["Mean"]` — the latter followed by
`["real"]` for the Jastrow and feed-forward runs (complex parameters) and
taken directly for the two RBM runs (real parameters).  The writer is the
library's JSON logger, not under `src/`; it is modelled below from the
specification's persisted-log format. -/

/-- A JSON value, as far as the log format needs: numbers, arrays and
string-keyed objects. -/
inductive JsonVal
  | num (q : ℚ)
  | arr (elems : List JsonVal)
  | obj (fields : List (String × JsonVal))

/-- An in-memory energy trajectory: the ordered iteration indices and the
real and imaginary parts of the mean energy estimate at each iteration. -/
structure EnergyLog where
  iters : List ℚ
  meanReal : List ℚ
  meanImag : List ℚ

/-- Modelled from the spec: the library logger's persisted file (not under
`src/`) for a run whose parameters are complex, so that the mean is
decomposed — a mapping from the metric name `Energy` to a record with the
ordered iteration indices and the real/imaginary mean estimates. -/
def writeLogComplex (lg : EnergyLog) : JsonVal :=
  JsonVal.obj
    [("Energy", JsonVal.obj
      [("iters", JsonVal.arr (lg.iters.map JsonVal.num)),
       ("Mean", JsonVal.obj
         [("real", JsonVal.arr (lg.meanReal.map JsonVal.num)),
          ("imag", JsonVal.arr (lg.meanImag.map JsonVal.num))])])]

/-- Modelled from the spec: the library logger's persisted file (not under
`src/`) for a run whose parameters are real, so that the mean is stored
directly as an array of numbers. -/
def writeLogReal (lg : EnergyLog) : JsonVal :=
  JsonVal.obj
    [("Energy", JsonVal.obj
      [("iters", JsonVal.arr (lg.iters.map JsonVal.num)),
       ("Mean", JsonVal.arr (lg.meanReal.map JsonVal.num))])]

/-- The file written for a run: name `<out>.log`, contents the serialized
log. -/
def writeRunFile (out : String) (lg : EnergyLog) : String × JsonVal :=
  (out ++ ".log", writeLogComplex lg)

/-- `json.load(open(name + ".log"))`: look the file up by run name. -/
def loadRunLog (files : List (String × JsonVal)) (out : String) :
    Option JsonVal :=
  files.lookup (out ++ ".log")

/-- `data[key]`: field access on a JSON object. -/
def getField (j : JsonVal) (key : String) : Option JsonVal :=
  match j with
  | JsonVal.obj fields => fields.lookup key
  | _ => none

/-- Read a JSON array of numbers. -/
def numArr : JsonVal → Option (List ℚ)
  | JsonVal.arr elems => numArrAux elems
  | _ => none
where
  numArrAux : List JsonVal → Option (List ℚ)
    | [] => some []
    | JsonVal.num q :: rest => (numArrAux rest).map fun qs => q :: qs
    | _ => none

/-- `data["Energy"]["iters"]`, as the notebook reads every log. -/
def readIters (data : JsonVal) : Option (List ℚ) :=
  (getField data "Energy").bind fun e => (getField e "iters").bind numArr

/-- `data["Energy"]["Mean"]["real"]`, as the notebook reads the Jastrow and
feed-forward logs. -/
def readMeanReal (data : JsonVal) : Option (List ℚ) :=
  (getField data "Energy").bind fun e =>
    (getField e "Mean").bind fun m => (getField m "real").bind numArr

/-- `data["Energy"]["Mean"]`, as the notebook reads the two RBM logs. -/
def readMeanDirect (data : JsonVal) : Option (List ℚ) :=
  (getField data "Energy").bind fun e => (getField e "Mean").bind numArr

/-- Reading back an array of serialized numbers recovers the numbers. -/
theorem numArr_map_num (qs : List ℚ) :
    numArr (JsonVal.arr (qs.map JsonVal.num)) = some qs := by
  show numArr.numArrAux (qs.map JsonVal.num) = some qs
  induction qs with
  | nil => rfl
  | cons q rest ih => simp [numArr.numArrAux, ih]

/-- C7: reloading a written run log by its run name succeeds, and the
notebook's key paths `Energy → iters` and `Energy → Mean` (through the
`real` field on the complex-parameter format, directly on the
real-parameter format) extract exactly the ordered iteration and mean
sequences that were written, hence the identical ordered sequence of
(iteration, mean) records. -/
theorem log_roundtrip_identical (out : String) (lg : EnergyLog) :
    loadRunLog [writeRunFile out lg] out = some (writeLogComplex lg) ∧
      readIters (writeLogComplex lg) = some lg.iters ∧
      readMeanReal (writeLogComplex lg) = some lg.meanReal ∧
      readIters (writeLogReal lg) = some lg.iters ∧
      readMeanDirect (writeLogReal lg) = some lg.meanReal ∧
      ((readIters (writeLogComplex lg)).bind fun is =>
          (readMeanReal (writeLogComplex lg)).map fun ms => is.zip ms)
        = some (lg.iters.zip lg.meanReal) := by
  refine ⟨?_, ?_, ?_, ?_, ?_, ?_⟩
  · simp [loadRunLog, writeRunFile, List.lookup]
  · simp [readIters, getField, writeLogComplex, List.lookup, numArr_map_num]
  · simp [readMeanReal, getField, writeLogComplex, List.lookup, numArr_map_num]
  · simp [readIters, getField, writeLogReal, List.lookup, numArr_map_num]
  · simp [readMeanDirect, getField, writeLogReal, List.lookup, numArr_map_num]
  · simp [readIters, readMeanReal, getField, writeLogComplex, List.lookup,
      numArr_map_num]
